import Mathlib

/-!
Verification of the `ws-serverless-patterns` CDK repository against its
design specification.

The repository declares a cloud topology twice:
* `src/unnamed/part_000` — the full stack: users table, users function,
  authorizer function, a REST API whose `defaultMethodOptions` attach a
  `TokenAuthorizer`, and a Cognito user pool feeding the authorizer's
  environment (`USER_POOL_ID`, `APPLICATION_CLIENT_ID`, `ADMIN_GROUP_NAME`).
* `src/lib/ws-serverless-patterns-stack.ts` — a stack with the same table,
  users function and API routes, but no authorizer of any kind.

The runtime Lambda sources (`./src/api/users/index.ts`,
`./src/api/authorizer/index.ts`) are only referenced as `entry` points and
are not part of the repository sources; where a claim depends on them they
are modelled from the specification, as marked in each doc comment.
-/

namespace WsServerlessPatterns

/-- DynamoDB attribute types used by `dynamodb.AttributeType` in the source. -/
inductive AttributeType
  | STRING
  | NUMBER
  | BINARY
deriving DecidableEq, Repr

/-- Billing modes of `dynamodb.BillingMode` in the source. -/
inductive BillingMode
  | PAY_PER_REQUEST
  | PROVISIONED
deriving DecidableEq, Repr

/-- `RemovalPolicy` values used by the source (`DESTROY`) and its alternative. -/
inductive RemovalPolicy
  | DESTROY
  | RETAIN
deriving DecidableEq, Repr

/-- A declared DynamoDB table, as constructed by `new dynamodb.Table(...)`. -/
structure TableDecl where
  logicalId : String
  partitionKeyName : String
  partitionKeyType : AttributeType
  billingMode : BillingMode
  removalPolicy : RemovalPolicy
deriving DecidableEq, Repr

/-- A declared Lambda function (`new lambda_nodejs.NodejsFunction(...)`),
with its environment after all `environment:` props and `addEnvironment`
calls of the stack constructor. Values that are deploy-time tokens
(table name, user pool id, client id, group name) are kept symbolic. -/
structure FunctionDecl where
  logicalId : String
  entry : String
  handler : String
  environment : List (String × String)
deriving DecidableEq, Repr

/-- The access level of a table grant; the source only issues
`grantReadWriteData`. -/
inductive TableAccess
  | readWrite
deriving DecidableEq, Repr

/-- One grant of table access to a function, as issued by
`usersTable.grantReadWriteData(usersFunction)`. -/
structure Grant where
  table : String
  grantee : String
  access : TableAccess
deriving DecidableEq, Repr

/-- HTTP methods wired by `addMethod` in the source. -/
inductive HttpMethod
  | GET
  | POST
  | PUT
  | DELETE
deriving DecidableEq, Repr

/-- One API Gateway method: a route path, an HTTP method, the Lambda
integration target, and the effective authorizer attached to the method
(logical id), if any. -/
structure ApiMethod where
  path : String
  httpMethod : HttpMethod
  integration : String
  authorizer : Option String
deriving DecidableEq, Repr

/-- A declared stack: the resource graph relevant to the claims. -/
structure StackDecl where
  tables : List TableDecl
  functions : List FunctionDecl
  grants : List Grant
  methods : List ApiMethod
deriving DecidableEq, Repr

/-- `resource.addMethod(m, integration)` as called in both stack files:
every call passes only an integration and no method options, so the
method's effective authorizer is exactly the RestApi's
`defaultMethodOptions.authorizer` (or none when the API declares none). -/
def addMethod (defaultAuthorizer : Option String) (path : String)
    (m : HttpMethod) (integration : String) : ApiMethod :=
  { path := path, httpMethod := m, integration := integration,
    authorizer := defaultAuthorizer }

/-- The route path of the `{userid}` child resource under `/users`. -/
def userResourcePath : String := "/users/\x7buserid\x7d"

/-- The five methods both stack files wire on the API:
GET and POST on `/users`, and DELETE, GET, PUT on `/users/{userid}`,
all integrating `users-function`. -/
def apiMethodsFor (defaultAuthorizer : Option String) : List ApiMethod :=
  [ addMethod defaultAuthorizer "/users" .GET "users-function",
    addMethod defaultAuthorizer "/users" .POST "users-function",
    addMethod defaultAuthorizer userResourcePath .DELETE "users-function",
    addMethod defaultAuthorizer userResourcePath .GET "users-function",
    addMethod defaultAuthorizer userResourcePath .PUT "users-function" ]

/-- The users table as declared in `src/unnamed/part_000` (lines 25-30):
partition key `userid : STRING`, pay-per-request, `RemovalPolicy.DESTROY`. -/
def usersTableA : TableDecl :=
  { logicalId := "users-table", partitionKeyName := "userid",
    partitionKeyType := .STRING, billingMode := .PAY_PER_REQUEST,
    removalPolicy := .DESTROY }

/-- The users table as declared in `src/lib/ws-serverless-patterns-stack.ts`
(lines 23-28); identical properties. -/
def usersTableB : TableDecl :=
  { logicalId := "users-table", partitionKeyName := "userid",
    partitionKeyType := .STRING, billingMode := .PAY_PER_REQUEST,
    removalPolicy := .DESTROY }

/-- `users-function` of `src/unnamed/part_000`: entry
`./src/api/users/index.ts`, environment `USERS_TABLE`. -/
def usersFunctionA : FunctionDecl :=
  { logicalId := "users-function", entry := "./src/api/users/index.ts",
    handler := "handler",
    environment := [("USERS_TABLE", "users-table.tableName")] }

/-- `authorizer-function` of `src/unnamed/part_000`: entry
`./src/api/authorizer/index.ts`; constructed with no environment, then the
stack constructor adds `USER_POOL_ID` (line 112), `APPLICATION_CLIENT_ID`
(line 143) and `ADMIN_GROUP_NAME` (line 156) via `addEnvironment`. -/
def authorizerFunctionA : FunctionDecl :=
  { logicalId := "authorizer-function",
    entry := "./src/api/authorizer/index.ts", handler := "handler",
    environment :=
      [ ("USER_POOL_ID", "user-pool.userPoolId"),
        ("APPLICATION_CLIENT_ID", "user-pool-client.userPoolClientId"),
        ("ADMIN_GROUP_NAME", "api-admin-group.groupName") ] }

/-- `users-function` of `src/lib/ws-serverless-patterns-stack.ts`
(same declaration as in `part_000`). -/
def usersFunctionB : FunctionDecl :=
  { logicalId := "users-function", entry := "./src/api/users/index.ts",
    handler := "handler",
    environment := [("USERS_TABLE", "users-table.tableName")] }

/-- The stack declared in `src/unnamed/part_000`: the RestApi is created
with `defaultMethodOptions: \x7b authorizer \x7d` where `authorizer` is the
`TokenAuthorizer` with logical id `api-authorizer` handled by
`authorizer-function`, so every method inherits it. The only table grant
is `usersTable.grantReadWriteData(usersFunction)` (line 52). -/
def stackA : StackDecl :=
  { tables := [usersTableA],
    functions := [usersFunctionA, authorizerFunctionA],
    grants := [⟨"users-table", "users-function", .readWrite⟩],
    methods := apiMethodsFor (some "api-authorizer") }

/-- The stack declared in `src/lib/ws-serverless-patterns-stack.ts`: the
RestApi is created with no `defaultMethodOptions` and no authorizer
construct exists in the file, so every method has no authorizer. -/
def stackB : StackDecl :=
  { tables := [usersTableB],
    functions := [usersFunctionB],
    grants := [⟨"users-table", "users-function", .readWrite⟩],
    methods := apiMethodsFor none }

/-! ### The Authorizer decision function

Modelled from the spec: the authorizer Lambda source
(`./src/api/authorizer/index.ts`, the `entry` of `authorizer-function`) is
not among the repository sources; spec section 4.1 defines its contract and
algorithm. -/

/-- Construction-time configuration of the Authorizer: the identity-issuer
identifiers and admin group name the stack passes via `addEnvironment`
(spec sections 4.1 and 9). -/
structure AuthorizerConfig where
  userPoolId : String
  applicationClientId : String
  adminGroupName : String
deriving DecidableEq, Repr

/-- The claims carried by a well-formed bearer token: principal identifier,
group memberships, the audience (client id) it was issued for, and its
expiry instant. -/
structure TokenPayload where
  principal : String
  groups : List String
  audience : String
  expiry : Nat
deriving DecidableEq, Repr

/-- Modelled from the spec: an inbound bearer credential is either
malformed (undecodable) or a decoded payload together with whether its
signature verifies against the configured identity issuer. -/
inductive Credential
  | malformed
  | signed (payload : TokenPayload) (signatureValid : Bool)
deriving DecidableEq, Repr

/-- Modelled from the spec (section 4.1, external interface `validate`):
credential validation against the identity issuer at instant `now` —
a malformed credential, a bad signature, a wrong audience, or an expired
token all yield `none` (invalid); otherwise the decoded payload. -/
def validate (cfg : AuthorizerConfig) (cred : Credential) (now : Nat) :
    Option TokenPayload :=
  match cred with
  | .malformed => none
  | .signed p sigOk =>
      if sigOk && (p.audience == cfg.applicationClientId)
          && (now < p.expiry : Bool) then some p else none

/-- Metadata of the requested operation, as the spec uses it: whether the
operation requires elevated (administrative) privilege. -/
structure Operation where
  requiresAdmin : Bool
deriving DecidableEq, Repr

/-- The Authorizer's verdict: ALLOW with the attached principal and group
set, or DENY. A verification ERROR is surfaced to the caller as DENY
(spec section 4.1 failure semantics), so the caller-visible outcome space
is exactly these two; `deny` carries no error detail. -/
inductive Decision
  | allow (principal : String) (groups : List String)
  | deny
deriving DecidableEq, Repr

/-- Modelled from the spec (section 4.1 algorithm): validate signature and
expiry against the configured issuer; on any verification failure return
DENY; if the operation requires elevated privilege and the caller's groups
lack the administrative marker, return DENY; otherwise ALLOW with the
principal and groups. A total function of its four arguments. -/
def authorize (cfg : AuthorizerConfig) (cred : Credential) (op : Operation)
    (now : Nat) : Decision :=
  match validate cfg cred now with
  | none => .deny
  | some p =>
      if op.requiresAdmin && !(p.groups.contains cfg.adminGroupName) then
        .deny
      else
        .allow p.principal p.groups

/-! ### The Resource handler

Modelled from the spec: the users Lambda source
(`./src/api/users/index.ts`, the `entry` of `users-function`) is not among
the repository sources; spec section 4.2 defines its contract over the
keyed record store. -/

/-- A user record's caller-supplied attributes: opaque named fields
(spec section 3). -/
abbrev RecordAttrs := List (String × String)

/-- The keyed record store: records addressed by their unique string key
(`userid`), modelled as an association list. -/
abbrev Store := List (String × RecordAttrs)

/-- The outbound status categories of spec section 6. -/
inductive StatusCategory
  | OK
  | NOT_FOUND
  | CONFLICT
  | DENIED
  | ERROR
deriving DecidableEq, Repr

/-- The body of a handler response: nothing, one record's attributes, or
the sequence of records of a scan. -/
inductive ResponseBody
  | empty
  | record (attrs : RecordAttrs)
  | records (rs : List (String × RecordAttrs))
deriving DecidableEq, Repr

/-- A structured handler result: status plus body (spec sections 4.2, 6). -/
structure HandlerResult where
  status : StatusCategory
  body : ResponseBody
deriving DecidableEq, Repr

/-- Modelled from the spec: GET with key — fetch one record, NOT_FOUND if
absent. Read-only. -/
def getRecord (store : Store) (k : String) : HandlerResult :=
  match store.lookup k with
  | some r => ⟨.OK, .record r⟩
  | none => ⟨.NOT_FOUND, .empty⟩

/-- Modelled from the spec: GET without key — list records (unbounded
scan). Read-only. -/
def listRecords (store : Store) : HandlerResult :=
  ⟨.OK, .records store⟩

/-- Modelled from the spec: POST — create a new record under a
caller-supplied key, which must be unique: CONFLICT if the key already
exists, leaving the store unchanged; otherwise the record is stored. -/
def createRecord (store : Store) (k : String) (attrs : RecordAttrs) :
    HandlerResult × Store :=
  match store.lookup k with
  | some _ => (⟨.CONFLICT, .empty⟩, store)
  | none => (⟨.OK, .record attrs⟩, (k, attrs) :: store)

/-- Modelled from the spec: PUT with key — full replace of an existing
record's attributes; NOT_FOUND if absent. -/
def replaceRecord (store : Store) (k : String) (attrs : RecordAttrs) :
    HandlerResult × Store :=
  match store.lookup k with
  | some _ =>
      (⟨.OK, .record attrs⟩,
        store.map (fun e => if e.1 == k then (k, attrs) else e))
  | none => (⟨.NOT_FOUND, .empty⟩, store)

/-- Modelled from the spec: DELETE with key — remove the record,
idempotent from the caller's perspective. The spec leaves the
missing-key outcome an explicit either/or choice to be held invariant;
this model fixes the idempotent-success policy: the single unconditional
key removal of the managed store succeeds whether or not the key exists,
always returning OK. -/
def deleteRecord (store : Store) (k : String) : HandlerResult × Store :=
  (⟨.OK, .empty⟩, store.filter (fun e => !(e.1 == k)))

/-- An inbound request as the spec shapes it: method, optional path key,
optional body; for POST the body carries the caller-supplied key and the
record attributes. -/
structure ApiRequest where
  method : HttpMethod
  pathKey : Option String
  body : Option (String × RecordAttrs)
deriving DecidableEq, Repr

/-- Modelled from the spec: the Resource handler's dispatch over
method/route shape (section 4.2); a request shape matching no contract
line is a ValidationError, reported as an explicit ERROR outcome. -/
def handleRequest (store : Store) (req : ApiRequest) :
    HandlerResult × Store :=
  match req.method, req.pathKey, req.body with
  | .GET, some k, _ => (getRecord store k, store)
  | .GET, none, _ => (listRecords store, store)
  | .POST, none, some (k, attrs) => createRecord store k attrs
  | .PUT, some k, some kattrs => replaceRecord store k kattrs.2
  | .DELETE, some k, _ => deleteRecord store k
  | _, _, _ => (⟨.ERROR, .empty⟩, store)

/-! ### The gateway invocation of a method -/

/-- Request-time events, ordered as they occur: the Authorizer emitting
its verdict, and the Resource handler being invoked. -/
inductive Event
  | authorizerVerdict (d : Decision)
  | handlerInvoked
deriving DecidableEq, Repr

/-- Modelled from the spec: the external gateway processing one inbound
request on a declared method (sections 2, 3). When the method has an
authorizer attached, the gateway invokes it first and its verdict is
authoritative: on DENY the Resource handler is never invoked and the
outcome is DENIED; on ALLOW the handler runs. When the method has no
authorizer attached, the gateway invokes the handler directly with no
verdict ever produced. Returns the event trace, the response, and the
resulting store. -/
def processMethod (cfg : AuthorizerConfig) (m : ApiMethod)
    (cred : Credential) (op : Operation) (now : Nat) (req : ApiRequest)
    (store : Store) : List Event × HandlerResult × Store :=
  match m.authorizer with
  | none =>
      let hs := handleRequest store req
      ([.handlerInvoked], hs.1, hs.2)
  | some _ =>
      match authorize cfg cred op now with
      | .deny => ([.authorizerVerdict .deny], ⟨.DENIED, .empty⟩, store)
      | .allow p gs =>
          let hs := handleRequest store req
          ([.authorizerVerdict (.allow p gs), .handlerInvoked], hs.1, hs.2)

/-- The Authorizer's construction-time configuration as assembled from a
declared function's environment: present exactly when all three identity
keys (`USER_POOL_ID`, `APPLICATION_CLIENT_ID`, `ADMIN_GROUP_NAME`) are set. -/
def authorizerConfigOf (f : FunctionDecl) : Option AuthorizerConfig :=
  match f.environment.lookup "USER_POOL_ID",
      f.environment.lookup "APPLICATION_CLIENT_ID",
      f.environment.lookup "ADMIN_GROUP_NAME" with
  | some u, some c, some g => some ⟨u, c, g⟩
  | _, _, _ => none

/-- The tables of a stack that survive stack deletion: exactly those
declared with `RemovalPolicy.RETAIN`. -/
def tablesSurvivingTeardown (s : StackDecl) : List TableDecl :=
  s.tables.filter (fun t => t.removalPolicy == .RETAIN)

/-- Modelled from the spec: stack teardown semantics of the external
provisioner — the record contents of a table deleted with the stack are
lost, so only surviving tables contribute records after teardown. -/
def recordsAfterTeardown (s : StackDecl) (contents : String → Store) :
    Store :=
  (tablesSurvivingTeardown s).foldr
    (fun t acc => contents t.logicalId ++ acc) []

/-- Looking up a key in a store after filtering out every entry with that
key finds nothing. -/
theorem lookup_filter_self_none (s : Store) (k : String) :
    (s.filter (fun e => !(e.1 == k))).lookup k = none := by
  induction s with
  | nil => rfl
  | cons e t ih =>
      by_cases he : e.1 = k
      · simp [List.filter, he, ih]
      · have hb : (e.1 == k) = false := beq_eq_false_iff_ne.mpr he
        have hb2 : (k == e.1) = false := beq_eq_false_iff_ne.mpr (Ne.symm he)
        simp [List.filter, hb, List.lookup, hb2, ih]

/-! ### Claims -/

/-- C2: for every valid, unexpired credential (verified signature, correct
audience, before expiry): an operation requiring elevated privilege is
denied when the caller's groups lack the administrative marker; the same
operation is allowed when the groups contain the marker; and any operation
not requiring elevated privilege is allowed. -/
theorem c2_admin_marker_gates_privilege (cfg : AuthorizerConfig)
    (p : TokenPayload) (op : Operation) (now : Nat)
    (hexp : now < p.expiry) (haud : p.audience = cfg.applicationClientId) :
    (op.requiresAdmin = true →
      p.groups.contains cfg.adminGroupName = false →
      authorize cfg (.signed p true) op now = .deny) ∧
    (p.groups.contains cfg.adminGroupName = true →
      authorize cfg (.signed p true) op now
        = .allow p.principal p.groups) ∧
    (op.requiresAdmin = false →
      authorize cfg (.signed p true) op now
        = .allow p.principal p.groups) := by
  have hv : validate cfg (.signed p true) now = some p := by
    simp [validate, haud, hexp]
  refine ⟨?_, ?_, ?_⟩
  · intro hadm hng
    simp [authorize, hv, hadm, hng]
    simpa using hng
  · intro hg
    simp [authorize, hv, hg]
    exact fun _ => by simpa using hg
  · intro hna
    simp [authorize, hv, hna]

/-- Witness for C2 at a concrete configuration and token. -/
theorem c2_admin_marker_gates_privilege_witness :
    (authorize ⟨"pool", "client", "apiAdmins"⟩
        (.signed ⟨"alice", ["users"], "client", 10⟩ true) ⟨true⟩ 5
      = .deny) ∧
    (authorize ⟨"pool", "client", "apiAdmins"⟩
        (.signed ⟨"bob", ["apiAdmins"], "client", 10⟩ true) ⟨true⟩ 5
      = .allow "bob" ["apiAdmins"]) ∧
    (authorize ⟨"pool", "client", "apiAdmins"⟩
        (.signed ⟨"alice", ["users"], "client", 10⟩ true) ⟨false⟩ 5
      = .allow "alice" ["users"]) :=
  ⟨(c2_admin_marker_gates_privilege _ _ _ _ (by decide) rfl).1 rfl
      (by decide),
    (c2_admin_marker_gates_privilege _ _ _ _ (by decide) rfl).2.1
      (by decide),
    (c2_admin_marker_gates_privilege _ _ _ _ (by decide) rfl).2.2 rfl⟩

/-- C3: every credential the issuer rejects (malformed, bad signature,
wrong audience, or expired — exactly the cases where `validate` returns
`none`) is surfaced to the caller as DENY and never as ALLOW; the verdict
is a total function and the `deny` verdict carries no error detail. -/
theorem c3_invalid_credential_denied (cfg : AuthorizerConfig)
    (cred : Credential) (op : Operation) (now : Nat)
    (hinvalid : validate cfg cred now = none) :
    authorize cfg cred op now = .deny ∧
    ∀ pr gs, authorize cfg cred op now ≠ .allow pr gs := by
  have h : authorize cfg cred op now = .deny := by
    simp [authorize, hinvalid]
  exact ⟨h, fun pr gs hc => by rw [h] at hc; exact Decision.noConfusion hc⟩

/-- Witness for C3: a malformed credential at a concrete configuration. -/
theorem c3_invalid_credential_denied_witness :
    authorize ⟨"pool", "client", "apiAdmins"⟩ .malformed ⟨true⟩ 0
      = .deny :=
  (c3_invalid_credential_denied ⟨"pool", "client", "apiAdmins"⟩
    .malformed ⟨true⟩ 0 rfl).1

/-- C4: creating under a key that already exists returns CONFLICT and
leaves the store unchanged (the existing record is not overwritten); in
particular creating the same key twice returns CONFLICT on the second call
and keeps the store produced by the first. -/
theorem c4_create_existing_conflict :
    (∀ (store : Store) (k : String) (attrs r : RecordAttrs),
      store.lookup k = some r →
      createRecord store k attrs = (⟨.CONFLICT, .empty⟩, store)) ∧
    (∀ (k : String) (a1 a2 : RecordAttrs) (store : Store),
      store.lookup k = none →
      (createRecord (createRecord store k a1).2 k a2).1.status = .CONFLICT ∧
      (createRecord (createRecord store k a1).2 k a2).2
        = (createRecord store k a1).2) := by
  constructor
  · intro s k a r h
    simp [createRecord, h]
  · intro k a1 a2 s h
    simp [createRecord, h, List.lookup]

/-- Witness for C4: creating key u1 twice from the empty store. -/
theorem c4_create_existing_conflict_witness :
    createRecord [("u1", [("name", "a")])] "u1" [("name", "b")]
      = (⟨.CONFLICT, .empty⟩, [("u1", [("name", "a")])]) ∧
    (createRecord (createRecord [] "u1" [("name", "a")]).2 "u1"
        [("name", "b")]).1.status = .CONFLICT :=
  ⟨c4_create_existing_conflict.1 [("u1", [("name", "a")])] "u1"
      [("name", "b")] [("name", "a")] (by decide),
    (c4_create_existing_conflict.2 "u1" [("name", "a")] [("name", "b")] []
      (by decide)).1⟩

/-- C5: deleting a missing key has one fixed outcome — the same result for
every store state and every missing key — and that outcome is OK
(idempotent success, the policy fixed by the model). -/
theorem c5_delete_missing_consistent (s1 s2 : Store) (k1 k2 : String)
    (h1 : s1.lookup k1 = none) (h2 : s2.lookup k2 = none) :
    (deleteRecord s1 k1).1 = (deleteRecord s2 k2).1 ∧
    (deleteRecord s1 k1).1 = ⟨.OK, .empty⟩ :=
  ⟨rfl, rfl⟩

/-- Witness for C5: two different stores and missing keys. -/
theorem c5_delete_missing_consistent_witness :
    (deleteRecord [] "u1").1
      = (deleteRecord [("u2", [("name", "a")])] "u9").1 ∧
    (deleteRecord [] "u1").1 = ⟨.OK, .empty⟩ :=
  c5_delete_missing_consistent [] [("u2", [("name", "a")])] "u1" "u9"
    (by decide) (by decide)

/-- C6: a successful create followed by a fetch of the same key returns
exactly the submitted attributes, and a fetch after a delete of the key
returns NOT_FOUND. -/
theorem c6_create_get_delete_get :
    (∀ (store : Store) (k : String) (attrs : RecordAttrs),
      store.lookup k = none →
      getRecord (createRecord store k attrs).2 k
        = ⟨.OK, .record attrs⟩) ∧
    (∀ (store : Store) (k : String),
      getRecord (deleteRecord store k).2 k = ⟨.NOT_FOUND, .empty⟩) := by
  constructor
  · intro s k a h
    simp [createRecord, h, getRecord, List.lookup]
  · intro s k
    have hl : ((deleteRecord s k).2).lookup k = none :=
      lookup_filter_self_none s k
    simp [getRecord, hl]

/-- Witness for C6: create then get, and delete then get, on key u1. -/
theorem c6_create_get_delete_get_witness :
    getRecord (createRecord [] "u1" [("name", "a")]).2 "u1"
      = ⟨.OK, .record [("name", "a")]⟩ ∧
    getRecord (deleteRecord [("u1", [("name", "a")])] "u1").2 "u1"
      = ⟨.NOT_FOUND, .empty⟩ :=
  ⟨c6_create_get_delete_get.1 _ _ _ (by decide),
    c6_create_get_delete_get.2 _ _⟩

/-- C7: within the credential's validity window the decision depends only
on the credential and the operation: two invocations at any two instants
before expiry produce the same decision, time entering only through the
expiry check. -/
theorem c7_decision_time_invariant (cfg : AuthorizerConfig)
    (p : TokenPayload) (sig : Bool) (op : Operation) (t1 t2 : Nat)
    (h1 : t1 < p.expiry) (h2 : t2 < p.expiry) :
    authorize cfg (.signed p sig) op t1
      = authorize cfg (.signed p sig) op t2 := by
  simp [authorize, validate, h1, h2]

/-- Witness for C7: the same credential evaluated at instants 3 and 7. -/
theorem c7_decision_time_invariant_witness :
    authorize ⟨"pool", "client", "apiAdmins"⟩
        (.signed ⟨"alice", ["users"], "client", 10⟩ true) ⟨false⟩ 3
      = authorize ⟨"pool", "client", "apiAdmins"⟩
        (.signed ⟨"alice", ["users"], "client", 10⟩ true) ⟨false⟩ 7 :=
  c7_decision_time_invariant _ _ _ _ _ _ (by decide) (by decide)

/-- C1 counterexample: in the stack declared in
`src/lib/ws-serverless-patterns-stack.ts` the mutating
DELETE `/users/\x7buserid\x7d` method carries no authorizer; processing a
request on it produces no authorizer verdict at all and executes the
mutating delete even for a credential whose decision would be deny. -/
theorem c1_counterexample :
    addMethod none userResourcePath .DELETE "users-function"
      ∈ stackB.methods ∧
    (addMethod none userResourcePath .DELETE "users-function").authorizer
      = none ∧
    authorize ⟨"pool", "client", "apiAdmins"⟩ .malformed ⟨true⟩ 0
      = .deny ∧
    processMethod ⟨"pool", "client", "apiAdmins"⟩
        (addMethod none userResourcePath .DELETE "users-function")
        .malformed ⟨true⟩ 0 ⟨.DELETE, some "u1", none⟩
        [("u1", [("name", "a")])]
      = ([.handlerInvoked], ⟨.OK, .empty⟩, []) := by
  refine ⟨by decide, rfl, rfl, by decide⟩

/-- C1 (amended): in the stack declared in `src/unnamed/part_000` every
API method carries the token authorizer; for every request the gateway
produces the Authorizer's verdict as the first event, strictly before any
handler invocation, and when the verdict denies access the Resource
handler is never invoked and the store is left unmutated. -/
theorem c1_all_methods_gated_in_stackA (m : ApiMethod)
    (hm : m ∈ stackA.methods) (cfg : AuthorizerConfig) (cred : Credential)
    (op : Operation) (now : Nat) (req : ApiRequest) (store : Store) :
    (processMethod cfg m cred op now req store).1.head?
      = some (.authorizerVerdict (authorize cfg cred op now)) ∧
    (authorize cfg cred op now = .deny →
      (processMethod cfg m cred op now req store).2.2 = store ∧
      Event.handlerInvoked ∉ (processMethod cfg m cred op now req store).1)
    := by
  have hall : ∀ x ∈ stackA.methods,
      x.authorizer = some "api-authorizer" := by decide
  have ha : m.authorizer = some "api-authorizer" := hall m hm
  constructor
  · simp only [processMethod, ha]
    cases authorize cfg cred op now <;> rfl
  · intro hd
    simp [processMethod, ha, hd]

/-- Witness for the amended C1: a denied (malformed) credential on the
GET `/users` method of the part_000 stack. -/
theorem c1_all_methods_gated_in_stackA_witness :
    (processMethod ⟨"pool", "client", "apiAdmins"⟩
        (addMethod (some "api-authorizer") "/users" .GET "users-function")
        .malformed ⟨false⟩ 0 ⟨.GET, none, none⟩ []).1.head?
      = some (.authorizerVerdict
          (authorize ⟨"pool", "client", "apiAdmins"⟩ .malformed ⟨false⟩ 0))
    ∧
    ((processMethod ⟨"pool", "client", "apiAdmins"⟩
        (addMethod (some "api-authorizer") "/users" .GET "users-function")
        .malformed ⟨false⟩ 0 ⟨.GET, none, none⟩ []).2.2 = [] ∧
      Event.handlerInvoked ∉
        (processMethod ⟨"pool", "client", "apiAdmins"⟩
          (addMethod (some "api-authorizer") "/users" .GET "users-function")
          .malformed ⟨false⟩ 0 ⟨.GET, none, none⟩ []).1) := by
  have h := c1_all_methods_gated_in_stackA
    (addMethod (some "api-authorizer") "/users" .GET "users-function")
    (by decide) ⟨"pool", "client", "apiAdmins"⟩ .malformed ⟨false⟩ 0
    ⟨.GET, none, none⟩ []
  exact ⟨h.1, h.2 rfl⟩

/-- C8: the identity-issuer configuration (user pool id, application
client id, admin group name) is part of the authorizer function's declared
environment in the part_000 stack — explicit configuration fixed at
construction time — and assembles into the Authorizer's configuration
record. -/
theorem c8_explicit_construction_config :
    authorizerFunctionA ∈ stackA.functions ∧
    authorizerConfigOf authorizerFunctionA
      = some ⟨"user-pool.userPoolId", "user-pool-client.userPoolClientId",
          "api-admin-group.groupName"⟩ :=
  ⟨by decide, rfl⟩

/-- C9: the only table grant in the part_000 stack gives the users
function read-write access to the users table; no grant names the
authorizer function, so the Authorizer has no access to the record
store. -/
theorem c9_only_users_function_granted :
    stackA.grants = [⟨"users-table", "users-function", .readWrite⟩] ∧
    stackA.grants.all (fun g => g.grantee != "authorizer-function")
      = true ∧
    usersFunctionA.logicalId = "users-function" ∧
    authorizerFunctionA.logicalId = "authorizer-function" :=
  ⟨rfl, rfl, rfl, rfl⟩

/-- C10: the users table is declared with `RemovalPolicy.DESTROY` in both
stack files, so no table of either stack survives teardown and, under the
modelled teardown semantics, no user records persist after stack
deletion. -/
theorem c10_destroy_on_removal :
    usersTableA.removalPolicy = .DESTROY ∧
    usersTableB.removalPolicy = .DESTROY ∧
    tablesSurvivingTeardown stackA = [] ∧
    tablesSurvivingTeardown stackB = [] ∧
    ∀ contents : String → Store,
      recordsAfterTeardown stackA contents = [] :=
  ⟨rfl, rfl, rfl, rfl, fun _ => rfl⟩

end WsServerlessPatterns
